import Mathlib

/-!
# InstaMax: verification of the fit-and-letterbox transformer

Shallow embedding of `src/instamax/instamax.py` (`maximize_image`).

Modelling notes:
* The script is Python 2 style (`#!/usr/bin/env python`, 2018): `/` on
  integers is floor division and `round` rounds half away from zero.  All
  geometric quantities are nonnegative, so we use `Nat` with its floor
  division.
* Float ratios (`float(h) / float(w)` etc.) are modelled as exact rationals;
  the comparison `1350/1080 < h/w` becomes the cross-multiplied
  `1350 * w < 1080 * h`.
* A PIL image is modelled by its width, height, mode and the two metadata
  blobs the code reads (`icc_profile`, `exif`).  `PIL.Image.rotate` with
  `expand=True` at a right angle returns the transposed image: its
  dimensions are swapped and its `info` dictionary (hence both metadata
  blobs) is copied from the source image unchanged.
* Python truthiness: `None` and the empty string are falsy, the integer `0`
  is falsy.  The `rotate` and `quality` arguments can be `None`, so they are
  `Option` valued.
* `int(None)` raises `TypeError`; fallible steps return `Except String`.
-/

def INSTA_MAX_WIDTH : Nat := 1080

def INSTA_MAX_HEIGHT : Nat := 1350

/-- A decoded raster image as the code consumes it: dimensions, color mode
and the two metadata blobs read at save time. -/
structure Image where
  width : Nat
  height : Nat
  mode : String
  icc_profile : Option Nat
  exif : Option Nat
deriving DecidableEq

/-- `PIL.Image.rotate(angle, expand=True)` at a right angle (90 or 270
degrees counter-clockwise): the canvas is expanded to the rotated extents,
so width and height are swapped; the `info` dictionary (metadata) is copied
to the result unchanged.  Any other angle modelled here leaves the image as
is (the code only ever passes 90 and 270). -/
def rotateExpand (img : Image) (angle : Nat) : Image :=
  if angle = 90 ∨ angle = 270 then
    { img with width := img.height, height := img.width }
  else img

/-- Python `str.lower()`, per character (ASCII case mapping, which covers
every string the code compares against). -/
def pyLower (s : String) : String :=
  String.mk (s.data.map Char.toLower)

/-- The rotation step of `maximize_image`:
`if rotate and rotate.lower() == 'clockwise': img = img.rotate(270, expand=True)`
`elif rotate and rotate.lower() == 'counter-clockwise': img = img.rotate(90, expand=True)`.
`none` models Python `None`; a string is truthy iff nonempty. -/
def applyRotate (rotate : Option String) (img : Image) : Image :=
  match rotate with
  | Option.none => img
  | Option.some r =>
    if r ≠ "" ∧ pyLower r = "clockwise" then rotateExpand img 270
    else if r ≠ "" ∧ pyLower r = "counter-clockwise" then rotateExpand img 90
    else img

/-- Python 2 `int(round(num / den))` for nonnegative `num`, positive `den`:
round half away from zero of the exact rational `num / den`. -/
def pyRound2 (num den : Nat) : Nat :=
  (2 * num + den) / (2 * den)

/-- The fit computation of `maximize_image` on the (post-rotation)
dimensions `(w, h)`: if `1350/1080 < h/w` (cross-multiplied:
`1350 * w < 1080 * h`) bind the height to 1350 and scale the width,
otherwise bind the width to 1080 and scale the height.  Returns
`(new_width, new_height)`. -/
def fit (w h : Nat) : Nat × Nat :=
  if INSTA_MAX_HEIGHT * w < INSTA_MAX_WIDTH * h then
    (pyRound2 (w * INSTA_MAX_HEIGHT) h, INSTA_MAX_HEIGHT)
  else
    (INSTA_MAX_WIDTH, pyRound2 (h * INSTA_MAX_WIDTH) w)

/-- The paste rectangle `(left, upper, right, lower)`. -/
structure Box where
  left : Nat
  upper : Nat
  right : Nat
  lower : Nat
deriving DecidableEq

/-- The centering computation of `maximize_image`:
`left = (1080 / 2) - (new_width / 2)`, `right = left + new_width`,
`upper = (1350 / 2) - (new_height / 2)`, `lower = upper + new_height`
(Python 2 integer floor division). -/
def placement (nw nh : Nat) : Box :=
  { left := INSTA_MAX_WIDTH / 2 - nw / 2
    upper := INSTA_MAX_HEIGHT / 2 - nh / 2
    right := INSTA_MAX_WIDTH / 2 - nw / 2 + nw
    lower := INSTA_MAX_HEIGHT / 2 - nh / 2 + nh }

/-- The background-color fallback:
`if color not in AVAILABLE_COLOR_MAP: color = 'white'`.  The color table is
externally supplied (`PIL.ImageColor.colormap`), so it is a parameter. -/
def resolveColor (colormap : List String) (color : String) : String :=
  if color ∈ colormap then color else "white"

/-- The quality normalization of `maximize_image`:
`if quality and int(quality) < 1: quality = 1`
`elif quality and int(quality) > 100: quality = 100`
`else: quality = int(quality)`.
Python `None` is falsy and `int(None)` raises `TypeError`; the integer `0`
is falsy, so it reaches the `else` branch and stays `0`. -/
def clampQuality : Option Int → Except String Int
  | Option.none => Except.error "TypeError: int() argument must be a number, not NoneType"
  | Option.some q =>
    if q ≠ 0 ∧ q < 1 then Except.ok 1
    else if q ≠ 0 ∧ q > 100 then Except.ok 100
    else Except.ok q

/-- Everything `maximize_image` bakes into the output file: the composited
background canvas dimensions, the fitted size, the paste rectangle, the
canvas mode and fill color, the JPEG quality, and the metadata blobs passed
to `save`. -/
structure Output where
  canvasWidth : Nat
  canvasHeight : Nat
  fittedWidth : Nat
  fittedHeight : Nat
  box : Box
  mode : String
  backgroundColor : String
  quality : Int
  icc_profile : Option Nat
  exif : Option Nat
deriving DecidableEq

/-- `maximize_image(input_file, output_file, rotate, color, quality)`:
rotate, fit, resize, create the 1080x1350 background canvas, paste centered,
normalize the quality, save with `icc_profile=img.info.get('icc_profile')`
and `exif=img.info.get('exif')` (where `img` is the post-rotation variable).
An `Except.error` models an exception raised before the output file is
written. -/
def maximize_image (colormap : List String) (img : Image)
    (rotate : Option String) (color : String) (quality : Option Int) :
    Except String Output :=
  let img1 := applyRotate rotate img
  let sz := fit img1.width img1.height
  (clampQuality quality).map fun q =>
    { canvasWidth := INSTA_MAX_WIDTH
      canvasHeight := INSTA_MAX_HEIGHT
      fittedWidth := sz.1
      fittedHeight := sz.2
      box := placement sz.1 sz.2
      mode := img1.mode
      backgroundColor := resolveColor colormap color
      quality := q
      icc_profile := img1.icc_profile
      exif := img1.exif }

/-! ## Helper lemmas -/

/-- The quality normalization on an actual integer, as one equation:
`0` stays `0` (falsy), other values below 1 become 1, values above 100
become 100, in-range values pass through. -/
lemma clampQuality_some (q : Int) :
    clampQuality (Option.some q) =
      Except.ok (if q = 0 then 0 else if q < 1 then 1 else if q > 100 then 100 else q) := by
  simp only [clampQuality]
  split_ifs <;> simp_all

/-- Rotation at a right angle with expansion preserves the metadata blobs. -/
lemma applyRotate_info (rotate : Option String) (img : Image) :
    (applyRotate rotate img).icc_profile = img.icc_profile ∧
      (applyRotate rotate img).exif = img.exif ∧
      (applyRotate rotate img).mode = img.mode := by
  unfold applyRotate rotateExpand
  cases rotate <;> simp <;> split_ifs <;> simp

/-- Characterization of a successful run of `maximize_image`: the quality
normalization succeeded and the output is the composited record. -/
lemma maximize_image_ok_iff (colormap : List String) (img : Image)
    (rotate : Option String) (color : String) (quality : Option Int) (out : Output) :
    maximize_image colormap img rotate color quality = Except.ok out ↔
      ∃ q, clampQuality quality = Except.ok q ∧
        out = { canvasWidth := INSTA_MAX_WIDTH
                canvasHeight := INSTA_MAX_HEIGHT
                fittedWidth := (fit (applyRotate rotate img).width (applyRotate rotate img).height).1
                fittedHeight := (fit (applyRotate rotate img).width (applyRotate rotate img).height).2
                box := placement (fit (applyRotate rotate img).width (applyRotate rotate img).height).1
                  (fit (applyRotate rotate img).width (applyRotate rotate img).height).2
                mode := (applyRotate rotate img).mode
                backgroundColor := resolveColor colormap color
                quality := q
                icc_profile := (applyRotate rotate img).icc_profile
                exif := (applyRotate rotate img).exif } := by
  unfold maximize_image
  cases hq : clampQuality quality with
  | error e => simp [Except.map, hq]
  | ok q => simp [Except.map, hq, eq_comm]

/-! ## Claims -/

/-- C1: for every source image with width ≥ 1 and height ≥ 1, the composited
background canvas that is encoded has dimensions exactly (1080, 1350),
regardless of rotation option, background color, or quality. -/
theorem maximize_output_dims (colormap : List String) (img : Image)
    (rotate : Option String) (color : String) (quality : Option Int) (out : Output)
    (hw : 1 ≤ img.width) (hh : 1 ≤ img.height)
    (hout : maximize_image colormap img rotate color quality = Except.ok out) :
    out.canvasWidth = 1080 ∧ out.canvasHeight = 1350 := by
  obtain ⟨q, hq, rfl⟩ := (maximize_image_ok_iff _ _ _ _ _ _).1 hout
  exact ⟨rfl, rfl⟩

/-- Witness for C1: the 2000x1000 source from the spec scenario. -/
theorem maximize_output_dims_witness :
    (⟨1080, 1350, 1080, 540, ⟨0, 405, 1080, 945⟩, "RGB", "white", 75,
        Option.none, Option.none⟩ : Output).canvasWidth = 1080 ∧
      (⟨1080, 1350, 1080, 540, ⟨0, 405, 1080, 945⟩, "RGB", "white", 75,
        Option.none, Option.none⟩ : Output).canvasHeight = 1350 :=
  maximize_output_dims ["white"] ⟨2000, 1000, "RGB", Option.none, Option.none⟩
    Option.none "white" (Option.some 75) _ (by decide) (by decide) rfl

/-- C2: the fit computation stays within the 1080x1350 target box with
equality on at least one axis; a source at most as tall as the target ratio
(`h/w ≤ 1350/1080`, i.e. `1080*h ≤ 1350*w`) binds the width to 1080, a
taller one binds the height to 1350. -/
theorem fit_bounds (w h : Nat) (hw : 1 ≤ w) (hh : 1 ≤ h) :
    (fit w h).1 ≤ 1080 ∧ (fit w h).2 ≤ 1350 ∧
      ((fit w h).1 = 1080 ∨ (fit w h).2 = 1350) ∧
      (1080 * h ≤ 1350 * w → (fit w h).1 = 1080 ∧ (fit w h).2 ≤ 1350) ∧
      (1350 * w < 1080 * h → (fit w h).2 = 1350 ∧ (fit w h).1 ≤ 1080) := by
  unfold fit pyRound2 INSTA_MAX_WIDTH INSTA_MAX_HEIGHT
  split_ifs with hcond
  · dsimp only
    have hb : (2 * (w * 1350) + h) / (2 * h) < 1081 := by
      rw [Nat.div_lt_iff_lt_mul (by omega)]
      omega
    exact ⟨by omega, le_rfl, Or.inr rfl, by omega, fun _ => ⟨rfl, by omega⟩⟩
  · dsimp only
    have hb : (2 * (h * 1080) + w) / (2 * w) < 1351 := by
      rw [Nat.div_lt_iff_lt_mul (by omega)]
      omega
    exact ⟨le_rfl, by omega, Or.inl rfl, fun _ => ⟨rfl, by omega⟩, by omega⟩

/-- Witness for C2: the 500x2000 source from the spec scenario. -/
theorem fit_bounds_witness :
    (1 : Nat) ≤ 500 ∧ (1 : Nat) ≤ 2000 ∧
      ((fit 500 2000).1 ≤ 1080 ∧ (fit 500 2000).2 ≤ 1350 ∧
        ((fit 500 2000).1 = 1080 ∨ (fit 500 2000).2 = 1350) ∧
        (1080 * 2000 ≤ 1350 * 500 → (fit 500 2000).1 = 1080 ∧ (fit 500 2000).2 ≤ 1350) ∧
        (1350 * 500 < 1080 * 2000 → (fit 500 2000).2 = 1350 ∧ (fit 500 2000).1 ≤ 1080)) :=
  ⟨by decide, by decide, fit_bounds 500 2000 (by decide) (by decide)⟩

/-- Counterexample for C3: `quality = 0` is below 1 but, being falsy, it
falls into the `else` branch and stays 0 — it does not become the minimum
valid value 1. -/
theorem clampQuality_zero_cex :
    clampQuality (Option.some 0) = Except.ok 0 ∧ (0 : Int) < 1 ∧
      clampQuality (Option.some 0) ≠ Except.ok 1 := by
  refine ⟨rfl, by decide, fun hcontra => ?_⟩
  simp [clampQuality] at hcontra

/-- C3 (amended): the quality normalization clamps every nonzero value
below 1 to 1 and every value above 100 to 100, and passes in-range values
through unchanged; the falsy value 0 passes through as 0. -/
theorem clampQuality_amended (q : Int) :
    clampQuality (Option.some q) =
      Except.ok (if q = 0 then 0 else if q < 1 then 1 else if q > 100 then 100 else q) :=
  clampQuality_some q

/-- Counterexample for C4: passing `quality = None` makes the function's own
quality normalization evaluate `int(None)`, which raises a `TypeError`
before anything is written — a failure of the component's own logic, not of
the image library. -/
theorem maximize_none_quality_cex :
    maximize_image ["white"] ⟨100, 100, "RGB", Option.none, Option.none⟩
        Option.none "white" Option.none =
      Except.error "TypeError: int() argument must be a number, not NoneType" := rfl

/-- C4 (amended): for every rotate option, color string and actual integer
quality, `maximize_image`'s own logic raises no exception; but passing
`quality = None` raises a `TypeError` in its own quality normalization. -/
theorem maximize_quality_errors (colormap : List String) (img : Image)
    (rotate : Option String) (color : String) :
    (∀ q : Int, ∃ out,
        maximize_image colormap img rotate color (Option.some q) = Except.ok out) ∧
      maximize_image colormap img rotate color Option.none =
        Except.error "TypeError: int() argument must be a number, not NoneType" := by
  refine ⟨fun q => ?_, rfl⟩
  unfold maximize_image
  rw [clampQuality_some]
  exact ⟨_, rfl⟩

/-- C5: the placement rectangle follows the code's integer formulas, its
dimensions equal the fitted dimensions exactly, it stays inside the canvas,
and the leftover margin is split as evenly as possible with the truncation
bias pushing the image toward the lower/right side (left/upper margin at
most one pixel larger than right/lower margin). -/
theorem placement_centered (nw nh : Nat) (hw : nw ≤ 1080) (hh : nh ≤ 1350) :
    (placement nw nh).left = 1080 / 2 - nw / 2 ∧
      (placement nw nh).upper = 1350 / 2 - nh / 2 ∧
      (placement nw nh).right = (placement nw nh).left + nw ∧
      (placement nw nh).lower = (placement nw nh).upper + nh ∧
      (placement nw nh).right - (placement nw nh).left = nw ∧
      (placement nw nh).lower - (placement nw nh).upper = nh ∧
      (placement nw nh).right ≤ 1080 ∧ (placement nw nh).lower ≤ 1350 ∧
      1080 - (placement nw nh).right ≤ (placement nw nh).left ∧
      (placement nw nh).left ≤ (1080 - (placement nw nh).right) + 1 ∧
      1350 - (placement nw nh).lower ≤ (placement nw nh).upper ∧
      (placement nw nh).upper ≤ (1350 - (placement nw nh).lower) + 1 := by
  unfold placement INSTA_MAX_WIDTH INSTA_MAX_HEIGHT
  dsimp only
  omega

/-- Witness for C5: the fitted size (1080, 540) of the spec's 2000x1000
scenario is placed at (0, 405, 1080, 945). -/
theorem placement_centered_witness :
    (placement 1080 540).left = 1080 / 2 - 1080 / 2 ∧
      (placement 1080 540).upper = 1350 / 2 - 540 / 2 ∧
      (placement 1080 540).right = (placement 1080 540).left + 1080 ∧
      (placement 1080 540).lower = (placement 1080 540).upper + 540 ∧
      (placement 1080 540).right - (placement 1080 540).left = 1080 ∧
      (placement 1080 540).lower - (placement 1080 540).upper = 540 ∧
      (placement 1080 540).right ≤ 1080 ∧ (placement 1080 540).lower ≤ 1350 ∧
      1080 - (placement 1080 540).right ≤ (placement 1080 540).left ∧
      (placement 1080 540).left ≤ (1080 - (placement 1080 540).right) + 1 ∧
      1350 - (placement 1080 540).lower ≤ (placement 1080 540).upper ∧
      (placement 1080 540).upper ≤ (1350 - (placement 1080 540).lower) + 1 :=
  placement_centered 1080 540 (by decide) (by decide)

/-- C6: a successful run writes the output with the `icc_profile` and `exif`
blobs of the original, pre-rotation source image, unchanged, for every
rotation option (rotation with expansion copies the metadata dictionary). -/
theorem maximize_preserves_metadata (colormap : List String) (img : Image)
    (rotate : Option String) (color : String) (quality : Option Int) (out : Output)
    (hout : maximize_image colormap img rotate color quality = Except.ok out) :
    out.icc_profile = img.icc_profile ∧ out.exif = img.exif := by
  obtain ⟨q, hq, rfl⟩ := (maximize_image_ok_iff _ _ _ _ _ _).1 hout
  exact ⟨(applyRotate_info rotate img).1, (applyRotate_info rotate img).2.1⟩

/-- Witness for C6: a 200x100 source with metadata blobs, rotated
"clockwise", keeps both blobs in the output. -/
theorem maximize_preserves_metadata_witness :
    (⟨1080, 1350, 675, 1350, ⟨203, 0, 878, 1350⟩, "RGB", "white", 75,
        Option.some 7, Option.some 9⟩ : Output).icc_profile = Option.some 7 ∧
      (⟨1080, 1350, 675, 1350, ⟨203, 0, 878, 1350⟩, "RGB", "white", 75,
        Option.some 7, Option.some 9⟩ : Output).exif = Option.some 9 :=
  maximize_preserves_metadata ["white"] ⟨200, 100, "RGB", Option.some 7, Option.some 9⟩
    (Option.some "clockwise") "white" (Option.some 75) _ rfl

/-- C7: a rotate string whose lowercasing is "clockwise" rotates the source
270 degrees counter-clockwise with expansion, one lowercasing to
"counter-clockwise" rotates 90 degrees counter-clockwise with expansion,
any other value (including absent and empty) leaves the image unrotated
silently; expansion at a right angle swaps the dimensions. -/
theorem applyRotate_cases (img : Image) (r : String) :
    (pyLower r = "clockwise" → applyRotate (Option.some r) img = rotateExpand img 270) ∧
      (pyLower r = "counter-clockwise" → applyRotate (Option.some r) img = rotateExpand img 90) ∧
      (pyLower r ≠ "clockwise" → pyLower r ≠ "counter-clockwise" →
        applyRotate (Option.some r) img = img) ∧
      applyRotate Option.none img = img ∧
      rotateExpand img 270 = { img with width := img.height, height := img.width } ∧
      rotateExpand img 90 = { img with width := img.height, height := img.width } := by
  refine ⟨?_, ?_, ?_, rfl, rfl, rfl⟩
  · intro hcw
    have hne : r ≠ "" := by rintro rfl; exact absurd hcw (by decide)
    simp [applyRotate, hne, hcw]
  · intro hccw
    have hne : r ≠ "" := by rintro rfl; exact absurd hccw (by decide)
    have hnc : pyLower r ≠ "clockwise" := by rw [hccw]; decide
    simp [applyRotate, hne, hccw, hnc]
  · intro h1 h2
    simp [applyRotate, h1, h2]

/-- Witness for C7: "CLOCKWISE" (mixed case) triggers the 270-degree
rotation with expansion. -/
theorem applyRotate_cases_witness :
    applyRotate (Option.some "CLOCKWISE") ⟨300, 200, "RGB", Option.none, Option.none⟩ =
      rotateExpand ⟨300, 200, "RGB", Option.none, Option.none⟩ 270 :=
  (applyRotate_cases ⟨300, 200, "RGB", Option.none, Option.none⟩ "CLOCKWISE").1 (by decide)

/-- C8: a background color absent from the externally supplied color table
falls back to "white" — the whole run is identical to one with color
"white" — while a color present in the table is used as given. -/
theorem maximize_color_fallback (colormap : List String) (img : Image)
    (rotate : Option String) (quality : Option Int) (color : String) :
    (color ∉ colormap →
        maximize_image colormap img rotate color quality =
          maximize_image colormap img rotate "white" quality) ∧
      (color ∈ colormap → ∀ out,
        maximize_image colormap img rotate color quality = Except.ok out →
          out.backgroundColor = color) := by
  constructor
  · intro hnot
    have h1 : resolveColor colormap color = "white" := by
      unfold resolveColor
      rw [if_neg hnot]
    have h2 : resolveColor colormap "white" = "white" := by
      unfold resolveColor
      exact ite_self _
    simp only [maximize_image, h1, h2]
  · intro hmem out hout
    obtain ⟨q, hq, rfl⟩ := (maximize_image_ok_iff _ _ _ _ _ _).1 hout
    show resolveColor colormap color = color
    unfold resolveColor
    rw [if_pos hmem]

/-- Witness for C8: "not-a-color" against a table containing "white" and
"blue" gives the same run as "white". -/
theorem maximize_color_fallback_witness :
    maximize_image ["white", "blue"] ⟨100, 100, "RGB", Option.none, Option.none⟩
        Option.none "not-a-color" (Option.some 75) =
      maximize_image ["white", "blue"] ⟨100, 100, "RGB", Option.none, Option.none⟩
        Option.none "white" (Option.some 75) :=
  (maximize_color_fallback ["white", "blue"] ⟨100, 100, "RGB", Option.none, Option.none⟩
      Option.none (Option.some 75) "not-a-color").1 (by decide)

/-- C9: a source already of dimensions 1080x1350 with no rotation fits to
exactly (1080, 1350), is placed at (0, 0, 1080, 1350), and the run keeps the
output dimensions unchanged at 1080x1350. -/
theorem maximize_identity_dims :
    fit 1080 1350 = (1080, 1350) ∧
      placement 1080 1350 = ⟨0, 0, 1080, 1350⟩ ∧
      maximize_image ["white"] ⟨1080, 1350, "RGB", Option.none, Option.none⟩
          Option.none "white" (Option.some 75) =
        Except.ok ⟨1080, 1350, 1080, 1350, ⟨0, 0, 1080, 1350⟩, "RGB", "white", 75,
          Option.none, Option.none⟩ :=
  ⟨rfl, rfl, rfl⟩

/-- C10: the fit computation does not guarantee that both fitted dimensions
are at least one pixel: the 1x10000 source (width, height ≥ 1) fits to a
zero fitted width, since round(1 * 1350/10000) = 0. -/
theorem fit_zero_dimension :
    (1 : Nat) ≤ 1 ∧ (1 : Nat) ≤ 10000 ∧ fit 1 10000 = (0, 1350) :=
  ⟨le_rfl, by decide, rfl⟩
